import Mathlib

/-!
Verification of the graph view-state store of the spanner-graph-notebook
frontend. The JavaScript sources are shallowly embedded: the mutable
`GraphStore` façade becomes explicit state passing, and listener
notification becomes a list of emitted events. JS `null`/`undefined`
values are modelled with `Option`, JS thrown errors with `Except`.
-/

namespace SpannerGraph

/-- Association-list lookup, modelling JS object property access
`map[key]` (the maps in the store are plain objects keyed by uid). -/
def lookupKV {α : Type} : List (String × α) → String → Option α
  | [], _ => none
  | (k, v) :: rest, key => if k = key then some v else lookupKV rest key

/-- Association-list insert with JS object-assignment semantics:
an existing key keeps its position and gets the new value
(last-write-wins), a new key is appended in insertion order. -/
def insertKV {α : Type} : List (String × α) → String → α → List (String × α)
  | [], key, v => [(key, v)]
  | (k, w) :: rest, key, v =>
      if k = key then (key, v) :: rest else (k, w) :: insertKV rest key v

/-- View modes of the store.  `DEFAULT` and `SCHEMA` appear in the
switch statements of `getNodes`/`getEdges`; the store's callback
documentation ("Whether to show the graph, table, or schema view")
names a third, table view mode, which the switches do not handle. -/
inductive ViewMode
  | DEFAULT
  | SCHEMA
  | TABLE
deriving DecidableEq, Repr

/-- The value held in `config.colorScheme`: one of the two enum members
or any other JS value (modelled by its string description). -/
inductive ColorSchemeVal
  | NEIGHBORHOOD
  | LABEL
  | other (v : String)
deriving DecidableEq, Repr

/-- Whether a graph object is a `Node` or an `Edge` instance
(`instanceof` checks in the store dispatch on this). -/
inductive GKind
  | gnode
  | gedge
deriving DecidableEq, Repr

/-- A graph-object-model instance as the store sees it: `objId` models
JS reference identity (`===`), `uid` the stable identifier, and
`sourceUid`/`destinationUid` the endpoint uids of an edge (unused for
nodes).  `neighborhood` is the numeric coloring classifier. -/
structure GraphObj where
  objId : Nat
  kind : GKind
  uid : String
  sourceUid : String
  destinationUid : String
  labels : List String
  neighborhood : Int
deriving DecidableEq, Repr

/-- JS reference equality `a === b` between graph objects: the
embedding keys identity by `objId`. -/
def jsEq (a b : GraphObj) : Bool := a.objId == b.objId

/-- A raw node record from a query payload
(`{identifier, labels, properties, key_property_names}`); only the
fields the verified operations read are carried. -/
structure NodeData where
  identifier : String
  labels : List String
deriving DecidableEq, Repr

/-- A raw edge record from a query payload
(`{identifier, source_node_identifier, destination_node_identifier,
labels, ...}`). -/
structure EdgeData where
  identifier : String
  sourceNodeIdentifier : String
  destinationNodeIdentifier : String
  labels : List String
deriving DecidableEq, Repr

/-- The state fields of `GraphConfig` that the verified store
operations read or write. -/
structure GraphConfigState where
  nodes : List (String × GraphObj)
  edges : List (String × GraphObj)
  schemaNodes : List (String × GraphObj)
  schemaEdges : List (String × GraphObj)
  nodeCount : Nat
  edgeCount : Nat
  nodeColors : List (String × String)
  colorPalette : List String
  colorScheme : ColorSchemeVal
  viewMode : ViewMode
  focusedGraphObject : Option GraphObj
  selectedGraphObject : Option GraphObj
deriving DecidableEq, Repr

/-- The `GraphStore` state: the wrapped configuration plus the store's
own reserved-color bookkeeping fields. -/
structure GraphStoreState where
  config : GraphConfigState
  reservedColorsByLabel : List (String × String)
  reservedColorsByNeighborhood : List Int
deriving DecidableEq, Repr

/-- One notification dispatched to the listeners of an event kind.
Callbacks receive the payload and `this.config`; the config snapshot at
dispatch time is recorded so notification ordering is observable. -/
inductive StoreEvent
  | focusObject (obj : Option GraphObj) (cfg : GraphConfigState)
  | selectObject (obj : Option GraphObj) (cfg : GraphConfigState)
  | viewModeChange (mode : ViewMode) (cfg : GraphConfigState)
  | showLabelsEvt (visible : Bool) (cfg : GraphConfigState)
  | colorSchemeEvt (scheme : ColorSchemeVal) (cfg : GraphConfigState)
  | graphDataUpdate (curNodes curEdges : List GraphObj)
      (newNodes : List NodeData) (newEdges : List EdgeData)
      (cfg : GraphConfigState)
deriving DecidableEq, Repr

/-- The three edge styles held in `config.edgeDesign`; `getEdgeDesign`
returns one of them. -/
inductive EdgeDesign
  | defaultStyle
  | focused
  | selected
deriving DecidableEq, Repr

/-- Modelled from the spec: `spanner-config.js` is not under `src/`
(only its unit test is).  `parseNodes` constructs a `Node` per raw
entry, drops entries failing validation (`labels` must be a non-empty
sequence), and indexes the result by `identifier` with last-write-wins
on duplicates within a batch.  The fold starting from an existing map
also serves as the merge step of `GraphConfig.appendGraphData`, which
never removes existing entries. -/
def mergeParsedNodes (m : List (String × GraphObj)) (raw : List NodeData) :
    List (String × GraphObj) :=
  raw.foldl
    (fun acc nd =>
      if nd.labels.isEmpty then acc
      else
        insertKV acc nd.identifier
          { objId := 0
            kind := .gnode
            uid := nd.identifier
            sourceUid := ""
            destinationUid := ""
            labels := nd.labels
            neighborhood := 0 })
    m

/-- Modelled from the spec: `parseEdges` constructs an `Edge` from
`source_node_identifier`/`destination_node_identifier`; entries failing
validation (empty `labels`) are dropped, edges referencing endpoints
absent from the node set are still stored, and the result is indexed by
`identifier`. -/
def mergeParsedEdges (m : List (String × GraphObj)) (raw : List EdgeData) :
    List (String × GraphObj) :=
  raw.foldl
    (fun acc ed =>
      if ed.labels.isEmpty then acc
      else
        insertKV acc ed.identifier
          { objId := 0
            kind := .gedge
            uid := ed.identifier
            sourceUid := ed.sourceNodeIdentifier
            destinationUid := ed.destinationNodeIdentifier
            labels := ed.labels
            neighborhood := 0 })
    m

/-- Modelled from the spec: `assignColors` iterates nodes in insertion
order; the first time a display-label (first label) is seen it receives
the next unused palette color, with palette exhaustion reusing index 0;
a label already assigned keeps its color. -/
def assignColors (colors : List (String × String)) (palette : List String)
    (ns : List GraphObj) : List (String × String) :=
  ns.foldl
    (fun acc n =>
      match n.labels.head? with
      | none => acc
      | some l =>
          match lookupKV acc l with
          | some _ => acc
          | none => acc ++ [(l, (palette.getD acc.length (palette.getD 0 "")))])
    colors

/-- Modelled from the spec: `GraphConfig.appendGraphData` parses the
new raw records and merges them into the live maps (append-only, no
re-check of duplicates — the store filters those), assigns colors to
newly seen labels, and recomputes `nodeCount`/`edgeCount` as the sizes
of the live maps. -/
def GraphConfigState.appendGraphData (c : GraphConfigState)
    (newNodesRaw : List NodeData) (newEdgesRaw : List EdgeData) :
    GraphConfigState :=
  let nodes := mergeParsedNodes c.nodes newNodesRaw
  let edges := mergeParsedEdges c.edges newEdgesRaw
  let addedNodes := mergeParsedNodes [] newNodesRaw
  { c with
      nodes := nodes
      edges := edges
      nodeCount := nodes.length
      edgeCount := edges.length
      nodeColors :=
        assignColors c.nodeColors c.colorPalette (addedNodes.map (fun kv => kv.2)) }

namespace GraphStore

/-- `GraphStore.setFocusedObject`: unconditional set, then notify the
focus listeners with the object and the config. -/
def setFocusedObject (s : GraphStoreState) (obj : Option GraphObj) :
    GraphStoreState × List StoreEvent :=
  let cfg := { s.config with focusedGraphObject := obj }
  ({ s with config := cfg }, [.focusObject obj cfg])

/-- `GraphStore.setSelectedObject`: unconditional set, then notify the
selection listeners. -/
def setSelectedObject (s : GraphStoreState) (obj : Option GraphObj) :
    GraphStoreState × List StoreEvent :=
  let cfg := { s.config with selectedGraphObject := obj }
  ({ s with config := cfg }, [.selectObject obj cfg])

/-- `GraphStore.setViewMode`: early return when the mode is unchanged;
otherwise clear focus and selection (each notifying its listeners),
switch the mode, then notify the view-mode listeners. -/
def setViewMode (s : GraphStoreState) (viewMode : ViewMode) :
    GraphStoreState × List StoreEvent :=
  if viewMode = s.config.viewMode then
    (s, [])
  else
    let (s1, ev1) := setFocusedObject s none
    let (s2, ev2) := setSelectedObject s1 none
    let cfg := { s2.config with viewMode := viewMode }
    ({ s2 with config := cfg }, ev1 ++ ev2 ++ [.viewModeChange viewMode cfg])

/-- `GraphStore.getNodes`: selects the node map by view mode
(`DEFAULT` → live nodes, `SCHEMA` → schema nodes, anything else → the
empty map the switch initialises) and returns its values in key order. -/
def getNodes (s : GraphStoreState) : List GraphObj :=
  match s.config.viewMode with
  | .DEFAULT => s.config.nodes.map (fun kv => kv.2)
  | .SCHEMA => s.config.schemaNodes.map (fun kv => kv.2)
  | .TABLE => []

/-- `GraphStore.getEdges`: same selection as `getNodes`, over the edge
maps. -/
def getEdges (s : GraphStoreState) : List GraphObj :=
  match s.config.viewMode with
  | .DEFAULT => s.config.edges.map (fun kv => kv.2)
  | .SCHEMA => s.config.schemaEdges.map (fun kv => kv.2)
  | .TABLE => []

/-- `GraphStore.appendGraphData`: filters out node records whose
identifier is already a key of the live node map and edge records
already keyed in the live edge map (a non-array argument contributes
nothing); returns early — no state change, no notification, JS return
value `undefined` — when both filtered batches are empty; otherwise
delegates the filtered batches to `GraphConfig.appendGraphData` and
notifies the graph-data-update listeners with the current graph and the
new items, returning `{newNodes, newEdges}`. -/
def appendGraphData (s : GraphStoreState)
    (nodesData : Option (List NodeData)) (edgesData : Option (List EdgeData)) :
    GraphStoreState × List StoreEvent × Option (List NodeData × List EdgeData) :=
  let newNodes :=
    match nodesData with
    | some l => l.filter (fun nd => (lookupKV s.config.nodes nd.identifier).isNone)
    | none => []
  let newEdges :=
    match edgesData with
    | some l => l.filter (fun ed => (lookupKV s.config.edges ed.identifier).isNone)
    | none => []
  if newNodes.isEmpty && newEdges.isEmpty then
    (s, [], none)
  else
    let cfg := s.config.appendGraphData newNodes newEdges
    let s1 := { s with config := cfg }
    (s1,
     [.graphDataUpdate (getNodes s1) (getEdges s1) newNodes newEdges cfg],
     some (newNodes, newEdges))

/-- `GraphStore.edgeIsConnectedToNode`: falsy edge or node yields
`false` (the `instanceof` guards are inert because `!edge instanceof
Edge` parses as `(!edge) instanceof Edge`); otherwise the edge touches
the object when its source or destination uid equals the object's uid. -/
def edgeIsConnectedToNode (edge : Option GraphObj) (node : Option GraphObj) : Bool :=
  match edge, node with
  | some e, some n => e.sourceUid == n.uid || e.destinationUid == n.uid
  | _, _ => false

/-- `GraphStore.getEdgeDesign`: returns which of the three edge styles
(`selected`, `focused`, `default`) the store picks for an edge, given
the current selection and focus. -/
def getEdgeDesign (s : GraphStoreState) (edge : GraphObj) : EdgeDesign :=
  let hasSelectedObject := s.config.selectedGraphObject.isSome
  let edgeIsSelected :=
    match s.config.selectedGraphObject with
    | some sel => jsEq edge sel
    | none => false
  if hasSelectedObject && edgeIsSelected then
    .selected
  else if hasSelectedObject then
    if edgeIsConnectedToNode (some edge) s.config.selectedGraphObject then
      .focused
    else
      .defaultStyle
  else
    let edgeIsFocused :=
      match s.config.focusedGraphObject with
      | some f => jsEq edge f
      | none => false
    if !hasSelectedObject && edgeIsFocused then
      .focused
    else if edgeIsConnectedToNode (some edge) s.config.focusedGraphObject
        || edgeIsConnectedToNode (some edge) s.config.selectedGraphObject then
      .focused
    else
      .defaultStyle

/-- `GraphStore.getColorForNodeByNeighborhood`: reuses the palette slot
already reserved for the node's neighborhood id, or reserves the next
slot for a first-seen neighborhood; an index past the end of the
palette logs "Ran out of colors for neighborhood" and falls back to
`colorPalette[0]`.  Returns the color (JS `undefined` as `none` when
the palette itself is empty), the updated store state, and the
diagnostics written to the console. -/
def getColorForNodeByNeighborhood (s : GraphStoreState) (node : GraphObj) :
    Option String × GraphStoreState × List String :=
  let reserved := s.reservedColorsByNeighborhood
  let (index, s1) :=
    match reserved.findIdx? (fun x => x = node.neighborhood) with
    | some i => (i, s)
    | none =>
        (reserved.length,
         { s with reservedColorsByNeighborhood := reserved ++ [node.neighborhood] })
  if s.config.colorPalette.length ≤ index then
    (s.config.colorPalette[0]?, s1, ["Ran out of colors for neighborhood"])
  else
    (s.config.colorPalette[index]?, s1, [])

/-- `GraphStore.getColorForNodeByLabel`: a missing node, a non-`Node`
object, a node whose display name has no entry in `nodeColors`, or a
falsy stored color all yield the neutral gray default; otherwise the
precomputed color for the node's display name (first label). -/
def getColorForNodeByLabel (s : GraphStoreState) (node : Option GraphObj) : String :=
  let defaultColor := "rgb(100, 100, 100)"
  match node with
  | none => defaultColor
  | some n =>
      if n.kind ≠ .gnode then defaultColor
      else
        match n.labels.head? with
        | none => defaultColor
        | some l =>
            match lookupKV s.config.nodeColors l with
            | some c => if c = "" then defaultColor else c
            | none => defaultColor

/-- `GraphStore.getColorForNode`: dispatches on the configured color
scheme; `NEIGHBORHOOD` and `LABEL` return a color (with the possibly
updated state and diagnostics), any other value throws. -/
def getColorForNode (s : GraphStoreState) (node : GraphObj) :
    Except String (Option String × GraphStoreState × List String) :=
  match s.config.colorScheme with
  | .NEIGHBORHOOD => .ok (getColorForNodeByNeighborhood s node)
  | .LABEL => .ok (some (getColorForNodeByLabel s (some node)), s, [])
  | .other _ => .error "Invalid color scheme"

end GraphStore

/-- The nine registered event types of `GraphStore.EventTypes`. -/
inductive EventType
  | CONFIG_CHANGE
  | FOCUS_OBJECT
  | SELECT_OBJECT
  | COLOR_SCHEME
  | VIEW_MODE_CHANGE
  | LAYOUT_MODE_CHANGE
  | SHOW_LABELS
  | NODE_EXPANSION_REQUEST
  | GRAPH_DATA_UPDATE
deriving DecidableEq, Repr

/-- The per-type listener arrays of `GraphStore.eventListeners`;
callbacks are represented by numeric ids. -/
structure EventListeners where
  listeners : EventType → List Nat

/-- `GraphStore.addEventListener`: a key absent from `eventListeners`
(any argument that is not one of the nine registered symbols) throws
"Invalid event type"; a registered type gets the callback appended to
its listener array. -/
def addEventListener (ls : EventListeners) (eventType : Option EventType)
    (callback : Nat) : Except String EventListeners :=
  match eventType with
  | none => .error "Invalid event type"
  | some t =>
      .ok ⟨fun t' => if t' = t then ls.listeners t ++ [callback] else ls.listeners t'⟩

/-- A JavaScript value as it may be passed for the `to`/`from`
parameters of the `Edge` constructor: a number carries whether it is
finite, other primitives are carried literally. -/
inductive JsVal
  | undef
  | jsNull
  | jsBool (b : Bool)
  | finiteNum (n : Int)
  | nanNum
  | infNum
  | str (s : String)
deriving DecidableEq, Repr

/-- Digits with an optional leading sign, as accepted by the exponent
part of a JS numeric literal. -/
def signedDigits (l : List Char) : Bool :=
  let l1 :=
    match l with
    | '+' :: rest => rest
    | '-' :: rest => rest
    | rest => rest
  !l1.isEmpty && l1.all (fun c => c.isDigit)

/-- The optional exponent tail of a JS numeric literal. -/
def exponentTail (l : List Char) : Bool :=
  match l with
  | [] => true
  | 'e' :: rest => signedDigits rest
  | 'E' :: rest => signedDigits rest
  | _ => false

/-- An unsigned JS decimal literal with optional fraction and exponent
(`12`, `12.`, `.5`, `1.5e3`, ...). -/
def unsignedDecimal (l : List Char) : Bool :=
  let (ds, rest) := l.span (fun c => c.isDigit)
  match rest with
  | '.' :: r2 =>
      let (ds2, rest2) := r2.span (fun c => c.isDigit)
      (!ds.isEmpty || !ds2.isEmpty) && exponentTail rest2
  | _ => !ds.isEmpty && exponentTail rest

/-- A non-empty run of digits of the given radix (16, 8 or 2), as the
body of a JS `0x`/`0o`/`0b` integer literal. -/
def radixDigits (radix : Nat) (l : List Char) : Bool :=
  let isRadixDigit : Char → Bool := fun c =>
    if radix = 16 then
      c.isDigit || ('a' ≤ c && c ≤ 'f') || ('A' ≤ c && c ≤ 'F')
    else if radix = 8 then '0' ≤ c && c ≤ '7'
    else c = '0' || c = '1'
  !l.isEmpty && l.all isRadixDigit

/-- The ECMAScript `StrWhiteSpaceChar` set trimmed around a numeric
string: ASCII whitespace, NBSP, BOM, the Unicode space separators, and
the line separators. -/
def jsWhiteSpace (c : Char) : Bool :=
  c = ' ' || c = '\t' || c = '\n' || c = '\r' || c = '\x0b' || c = '\x0c' ||
  c = '\u00A0' || c = '\uFEFF' || c = '\u1680' ||
  ('\u2000' ≤ c && c ≤ '\u200A') ||
  c = '\u2028' || c = '\u2029' || c = '\u202F' || c = '\u205F' || c = '\u3000'

/-- Whether `Number(s)` yields a finite number for string `s`, per the
ECMAScript `StringNumericLiteral` grammar: after trimming whitespace,
an empty string coerces to `0`; `Infinity` forms are non-finite; a
`0x`/`0X`, `0o`/`0O` or `0b`/`0B` prefix takes an unsigned run of
digits of that radix; anything else must be a (signed) decimal literal
with optional fraction and exponent. -/
def strCoercesToFiniteNumber (s : String) : Bool :=
  let t := ((s.toList.dropWhile jsWhiteSpace).reverse.dropWhile
      jsWhiteSpace).reverse
  if t = [] then true
  else if t = "Infinity".toList || t = "+Infinity".toList ||
      t = "-Infinity".toList then false
  else
    match t with
    | '0' :: 'x' :: rest => radixDigits 16 rest
    | '0' :: 'X' :: rest => radixDigits 16 rest
    | '0' :: 'o' :: rest => radixDigits 8 rest
    | '0' :: 'O' :: rest => radixDigits 8 rest
    | '0' :: 'b' :: rest => radixDigits 2 rest
    | '0' :: 'B' :: rest => radixDigits 2 rest
    | '+' :: rest => unsignedDecimal rest
    | '-' :: rest => unsignedDecimal rest
    | rest => unsignedDecimal rest

/-- `Edge.isNumber(value)`, i.e. `Number.isFinite(Number(value))`:
`undefined` coerces to `NaN`, `null` and booleans to finite numbers,
numbers pass through, strings per the string-to-number coercion. -/
def isNumber : JsVal → Bool
  | .undef => false
  | .jsNull => true
  | .jsBool _ => true
  | .finiteNum _ => true
  | .nanNum => false
  | .infNum => false
  | .str s => strCoercesToFiniteNumber s

/-- The parameter object `{to, from, label, properties, title}` of the
`Edge` constructor. -/
structure EdgeParams where
  toVal : JsVal
  fromVal : JsVal
  label : JsVal
  properties : JsVal
  title : JsVal
deriving DecidableEq, Repr

/-- An `Edge` model instance: the base-class fields plus the
`instantiated` flag and the endpoint fields, which stay unset (JS
`undefined`, here `none`) when construction fails. -/
structure EdgeObj where
  label : JsVal
  title : JsVal
  properties : JsVal
  instantiated : Bool
  target : Option JsVal
  source : Option JsVal
deriving DecidableEq, Repr

/-- `Edge` constructor: after the base-class initialisation (modelled
from the spec: the `GraphObject` base class of this model file is not
under `src/`; per the spec a failed construction marks the instance not
instantiated rather than throwing, so the super call never throws), a
non-numeric `to` or `from` marks the instance not instantiated with
`target`/`source` left unset and logs a diagnostic; otherwise the
endpoints are stored and the instance is marked instantiated.  The
`Except` result models that JS construction could in principle throw;
this constructor never does. -/
def Edge.construct (p : EdgeParams) : Except String EdgeObj :=
  let base : EdgeObj :=
    { label := p.label
      title := p.title
      properties := p.properties
      instantiated := true
      target := none
      source := none }
  if !isNumber p.toVal || !isNumber p.fromVal then
    .ok { base with instantiated := false }
  else
    .ok { base with
            target := some p.toVal
            source := some p.fromVal
            instantiated := true }

/-- A `GraphObject` (current model generation) instance. -/
structure GraphObjectObj where
  labels : List String
  instantiated : Bool
deriving DecidableEq, Repr

/-- Modelled from the spec and the repository's own unit test: the
implementation file `models/graph-object.js` is not under `src/`.
Where the unit test speaks it wins — constructing a `GraphObject`
without `labels` throws `TypeError('labels must be an Array')` (it does
not return a flagged instance).  Where only the spec speaks it is
followed — `labels` must be a non-empty sequence or construction fails,
and that validation failure marks the instance not instantiated rather
than throwing.  A non-empty labels sequence instantiates the object
keeping its labels, the first being the display name. -/
def GraphObject.construct (labels : Option (List String)) :
    Except String GraphObjectObj :=
  match labels with
  | none => .error "TypeError: labels must be an Array"
  | some ls =>
      if ls.isEmpty then .ok { labels := ls, instantiated := false }
      else .ok { labels := ls, instantiated := true }

/-- `GraphObject.getDisplayName()`: the first label (JS `undefined`,
here `none`, when there is none). -/
def GraphObjectObj.getDisplayName (g : GraphObjectObj) : Option String :=
  g.labels.head?

/-- The endpoint back-reference of an edge table
(`sourceNodeTable`/`destinationNodeTable`). -/
structure NodeTableRef where
  nodeTableName : String
deriving DecidableEq, Repr

/-- A node table of the raw schema document (fields the verified
operations read). -/
structure NodeTable where
  name : String
  labelNames : List String
deriving DecidableEq, Repr

/-- An edge table of the raw schema document (fields the verified
operations read). -/
structure EdgeTable where
  name : String
  labelNames : List String
  sourceNodeTable : NodeTableRef
  destinationNodeTable : NodeTableRef
deriving DecidableEq, Repr

/-- The raw schema document wrapped by `Schema`. -/
structure RawSchema where
  nodeTables : List NodeTable
  edgeTables : List EdgeTable
deriving DecidableEq, Repr

/-- `Schema.getNodeFromName`: the first node table whose `name` matches,
or a diagnostic and JS `undefined` (`none`) when there is none. -/
def Schema.getNodeFromName (s : RawSchema) (name : String) : Option NodeTable :=
  (s.nodeTables.filter (fun t => t.name = name)).head?

/-- `Schema.getEdgeFromName`: the first edge table whose `name` matches,
or a diagnostic and JS `undefined` (`none`) when there is none. -/
def Schema.getEdgeFromName (s : RawSchema) (name : String) : Option EdgeTable :=
  (s.edgeTables.filter (fun t => t.name = name)).head?

/-- The `{isConnected, isSource}` record returned by
`Schema.nodeIsConnectedToEdge`. -/
structure ConnectionResult where
  isConnected : Bool
  isSource : Bool
deriving DecidableEq, Repr

/-- `Schema.nodeIsConnectedToEdge`: starts from
`{isConnected: false, isSource: false}` and returns it unchanged when
either name fails to resolve; otherwise `isConnected` is true and
`isSource` is whether the edge table's source node table name equals
the resolved node table's name. -/
def Schema.nodeIsConnectedToEdge (s : RawSchema) (nodeName edgeName : String) :
    ConnectionResult :=
  match Schema.getNodeFromName s nodeName with
  | none => { isConnected := false, isSource := false }
  | some node =>
      match Schema.getEdgeFromName s edgeName with
      | none => { isConnected := false, isSource := false }
      | some edge =>
          { isConnected := true
            isSource := edge.sourceNodeTable.nodeTableName == node.name }

/-! Concrete fixtures used to evaluate the verified operations on
specific inputs. -/

/-- A configuration with empty graphs, label coloring, live view. -/
def baseConfig : GraphConfigState :=
  { nodes := []
    edges := []
    schemaNodes := []
    schemaEdges := []
    nodeCount := 0
    edgeCount := 0
    nodeColors := []
    colorPalette := []
    colorScheme := .LABEL
    viewMode := .DEFAULT
    focusedGraphObject := none
    selectedGraphObject := none }

/-- A store wrapping `baseConfig` with empty reserved-color maps. -/
def baseStore : GraphStoreState :=
  { config := baseConfig
    reservedColorsByLabel := []
    reservedColorsByNeighborhood := [] }

/-- A sample node object. -/
def personNode : GraphObj :=
  { objId := 1
    kind := .gnode
    uid := "1"
    sourceUid := ""
    destinationUid := ""
    labels := ["Person"]
    neighborhood := 7 }

/-- A second sample node object. -/
def companyNode : GraphObj :=
  { objId := 2
    kind := .gnode
    uid := "2"
    sourceUid := ""
    destinationUid := ""
    labels := ["Company"]
    neighborhood := 8 }

/-- A sample edge object from `personNode` to `companyNode`. -/
def worksAtEdge : GraphObj :=
  { objId := 3
    kind := .gedge
    uid := "edge-1"
    sourceUid := "1"
    destinationUid := "2"
    labels := ["WORKS_AT"]
    neighborhood := 0 }

/-- An edge object unrelated to `personNode` and `companyNode`. -/
def strayEdge : GraphObj :=
  { objId := 4
    kind := .gedge
    uid := "edge-2"
    sourceUid := "8"
    destinationUid := "9"
    labels := ["OWNS"]
    neighborhood := 0 }

/-- A store in live view with a node currently focused. -/
def focusedStore : GraphStoreState :=
  { baseStore with
      config := { baseConfig with focusedGraphObject := some personNode } }

/-- A store in the table view mode, with non-empty live and schema
graphs, so that an empty answer cannot come from empty maps. -/
def tableStore : GraphStoreState :=
  { baseStore with
      config :=
        { baseConfig with
            viewMode := .TABLE
            nodes := [("1", personNode)]
            edges := [("edge-1", worksAtEdge)]
            schemaNodes := [("s1", companyNode)]
            schemaEdges := [("se1", strayEdge)] } }

/-- A store under the neighborhood color scheme with an unexhausted
palette and no reserved neighborhood yet. -/
def nbhStore : GraphStoreState :=
  { baseStore with
      config :=
        { baseConfig with
            colorScheme := .NEIGHBORHOOD
            colorPalette := ["red", "green"] } }

/-- A second neighborhood-scheme store, for exhibiting the mutation of
the reserved-color bookkeeping. -/
def nbhStore2 : GraphStoreState :=
  { baseStore with
      config :=
        { baseConfig with
            colorScheme := .NEIGHBORHOOD
            colorPalette := ["blue"] } }

/-- A store for exercising `getEdgeDesign` with a selection present. -/
def selectedStore : GraphStoreState :=
  { baseStore with
      config := { baseConfig with selectedGraphObject := some personNode } }

/-- A sample raw node record. -/
def janeData : NodeData := { identifier := "10", labels := ["Person"] }

/-- A second sample raw node record. -/
def acmeData : NodeData := { identifier := "11", labels := ["Company"] }

/-- A raw node record failing validation (no labels). -/
def invalidNodeData : NodeData := { identifier := "12", labels := [] }

/-- A sample raw edge record. -/
def worksAtData : EdgeData :=
  { identifier := "e10"
    sourceNodeIdentifier := "10"
    destinationNodeIdentifier := "11"
    labels := ["WORKS_AT"] }

/-- The schema fixture of the unit tests: `Person` and `Company` node
tables and a `WORKS_AT` edge table from `Person` to `Company`. -/
def worksAtSchema : RawSchema :=
  { nodeTables :=
      [ { name := "Person", labelNames := ["Person"] }
      , { name := "Company", labelNames := ["Company"] } ]
    edgeTables :=
      [ { name := "WORKS_AT"
          labelNames := ["WORKS_AT"]
          sourceNodeTable := { nodeTableName := "Person" }
          destinationNodeTable := { nodeTableName := "Company" } } ] }

/-- A store whose live node map already contains the identifier of
`janeData`, so that re-submitting `janeData` is dropped by the
de-duplication filter. -/
def dupStore : GraphStoreState :=
  { baseStore with
      config :=
        { baseConfig with nodes := [("10", personNode)], nodeCount := 1 } }

/-! Helper lemmas about the association-list maps. -/

/-- Looking a key up after an insert: the inserted key maps to the new
value, any other key is untouched. -/
theorem lookupKV_insertKV {α : Type} (m : List (String × α)) (k : String) (v : α)
    (k' : String) :
    lookupKV (insertKV m k v) k' = if k = k' then some v else lookupKV m k' := by
  induction m with
  | nil => by_cases h : k = k' <;> simp [insertKV, lookupKV, h]
  | cons hd tl ih =>
      obtain ⟨hk, hv⟩ := hd
      by_cases h1 : hk = k
      · subst h1
        by_cases h2 : hk = k' <;> simp [insertKV, lookupKV, h2]
      · by_cases h2 : hk = k'
        · subst h2
          have h3 : ¬k = hk := fun h => h1 h.symm
          simp [insertKV, lookupKV, h1, h3]
        · simp [insertKV, lookupKV, h1, h2, ih]

/-- A fold whose step preserves key presence preserves key presence. -/
theorem lookupKV_foldl_isSome {ρ α : Type}
    (f : List (String × α) → ρ → List (String × α))
    (hf : ∀ acc r k, (lookupKV acc k).isSome → (lookupKV (f acc r) k).isSome)
    (raw : List ρ) (m : List (String × α)) (k : String)
    (h : (lookupKV m k).isSome) : (lookupKV (raw.foldl f m) k).isSome := by
  induction raw generalizing m with
  | nil => simpa using h
  | cons r rest ih => exact ih (f m r) (hf m r k h)

/-- The step function of `mergeParsedNodes` preserves key presence. -/
theorem mergeParsedNodes_step_isSome (acc : List (String × GraphObj))
    (nd : NodeData) (k : String) (h : (lookupKV acc k).isSome) :
    (lookupKV
      (if nd.labels.isEmpty then acc
       else insertKV acc nd.identifier
        { objId := 0, kind := .gnode, uid := nd.identifier, sourceUid := ""
          destinationUid := "", labels := nd.labels, neighborhood := 0 }) k).isSome := by
  by_cases hv : nd.labels.isEmpty
  · simpa [hv] using h
  · rw [if_neg hv, lookupKV_insertKV]
    by_cases hk : nd.identifier = k
    · simp [hk]
    · simpa [hk] using h

/-- The step function of `mergeParsedEdges` preserves key presence. -/
theorem mergeParsedEdges_step_isSome (acc : List (String × GraphObj))
    (ed : EdgeData) (k : String) (h : (lookupKV acc k).isSome) :
    (lookupKV
      (if ed.labels.isEmpty then acc
       else insertKV acc ed.identifier
        { objId := 0, kind := .gedge, uid := ed.identifier
          sourceUid := ed.sourceNodeIdentifier
          destinationUid := ed.destinationNodeIdentifier
          labels := ed.labels, neighborhood := 0 }) k).isSome := by
  by_cases hv : ed.labels.isEmpty
  · simpa [hv] using h
  · rw [if_neg hv, lookupKV_insertKV]
    by_cases hk : ed.identifier = k
    · simp [hk]
    · simpa [hk] using h

/-- Merging never removes a key from the node map. -/
theorem lookupKV_mergeParsedNodes_isSome (m : List (String × GraphObj))
    (raw : List NodeData) (k : String) (h : (lookupKV m k).isSome) :
    (lookupKV (mergeParsedNodes m raw) k).isSome :=
  lookupKV_foldl_isSome _ (fun acc r k' h' => mergeParsedNodes_step_isSome acc r k' h')
    raw m k h

/-- Merging never removes a key from the edge map. -/
theorem lookupKV_mergeParsedEdges_isSome (m : List (String × GraphObj))
    (raw : List EdgeData) (k : String) (h : (lookupKV m k).isSome) :
    (lookupKV (mergeParsedEdges m raw) k).isSome :=
  lookupKV_foldl_isSome _ (fun acc r k' h' => mergeParsedEdges_step_isSome acc r k' h')
    raw m k h

/-- A valid (non-empty-labels) record of the batch ends up keyed in the
merged node map. -/
theorem lookupKV_mergeParsedNodes_mem (m : List (String × GraphObj))
    (raw : List NodeData) (nd : NodeData) (hmem : nd ∈ raw)
    (hval : nd.labels.isEmpty = false) :
    (lookupKV (mergeParsedNodes m raw) nd.identifier).isSome := by
  induction raw generalizing m with
  | nil => cases hmem
  | cons r rest ih =>
      rcases List.mem_cons.mp hmem with h | h
      · subst h
        show (lookupKV (List.foldl _ _ rest) nd.identifier).isSome
        apply lookupKV_foldl_isSome _
          (fun acc r k' h' => mergeParsedNodes_step_isSome acc r k' h') rest
        simp [hval, lookupKV_insertKV]
      · exact ih _ h

/-- A valid record of the batch ends up keyed in the merged edge map. -/
theorem lookupKV_mergeParsedEdges_mem (m : List (String × GraphObj))
    (raw : List EdgeData) (ed : EdgeData) (hmem : ed ∈ raw)
    (hval : ed.labels.isEmpty = false) :
    (lookupKV (mergeParsedEdges m raw) ed.identifier).isSome := by
  induction raw generalizing m with
  | nil => cases hmem
  | cons r rest ih =>
      rcases List.mem_cons.mp hmem with h | h
      · subst h
        show (lookupKV (List.foldl _ _ rest) ed.identifier).isSome
        apply lookupKV_foldl_isSome _
          (fun acc r k' h' => mergeParsedEdges_step_isSome acc r k' h') rest
        simp [hval, lookupKV_insertKV]
      · exact ih _ h

/-- A batch that contains only invalid records merges to the unchanged
node map. -/
theorem mergeParsedNodes_all_invalid (m : List (String × GraphObj))
    (raw : List NodeData) (h : ∀ x ∈ raw, x.labels.isEmpty = true) :
    mergeParsedNodes m raw = m := by
  induction raw generalizing m with
  | nil => rfl
  | cons r rest ih =>
      show List.foldl _ _ rest = m
      have hr := h r (List.mem_cons_self r rest)
      simp only [hr, if_true]
      exact ih m (fun x hx => h x (List.mem_cons_of_mem r hx))

/-- A batch that contains only invalid records merges to the unchanged
edge map. -/
theorem mergeParsedEdges_all_invalid (m : List (String × GraphObj))
    (raw : List EdgeData) (h : ∀ x ∈ raw, x.labels.isEmpty = true) :
    mergeParsedEdges m raw = m := by
  induction raw generalizing m with
  | nil => rfl
  | cons r rest ih =>
      show List.foldl _ _ rest = m
      have hr := h r (List.mem_cons_self r rest)
      simp only [hr, if_true]
      exact ih m (fun x hx => h x (List.mem_cons_of_mem r hx))

/-- C10: in any view mode other than the live (DEFAULT) and schema
(SCHEMA) modes — i.e. the table mode of the view-mode callbacks —
`getNodes()` and `getEdges()` return the empty array instead of either
graph universe. -/
theorem getNodes_getEdges_other_view_modes (s : GraphStoreState)
    (h1 : s.config.viewMode ≠ .DEFAULT) (h2 : s.config.viewMode ≠ .SCHEMA) :
    GraphStore.getNodes s = [] ∧ GraphStore.getEdges s = [] := by
  cases hvm : s.config.viewMode with
  | DEFAULT => exact absurd hvm h1
  | SCHEMA => exact absurd hvm h2
  | TABLE => simp [GraphStore.getNodes, GraphStore.getEdges, hvm]

/-- Witness for C10: a table-mode store with non-empty live and schema
maps still answers empty collections. -/
theorem getNodes_getEdges_other_view_modes_witness :
    GraphStore.getNodes tableStore = [] ∧ GraphStore.getEdges tableStore = [] :=
  getNodes_getEdges_other_view_modes tableStore (by decide) (by decide)

/-- C9: the schema connection lookup returns
`{isConnected := false, isSource := false}` when either name fails to
resolve to a table, and otherwise `isConnected := true` with `isSource`
true exactly when the resolved edge table's source node table name
equals the resolved node table's name. -/
theorem nodeIsConnectedToEdge_spec (s : RawSchema) (nodeName edgeName : String) :
    ((Schema.getNodeFromName s nodeName = none ∨
      Schema.getEdgeFromName s edgeName = none) →
      Schema.nodeIsConnectedToEdge s nodeName edgeName =
        { isConnected := false, isSource := false })
    ∧ (∀ node edge,
        Schema.getNodeFromName s nodeName = some node →
        Schema.getEdgeFromName s edgeName = some edge →
        Schema.nodeIsConnectedToEdge s nodeName edgeName =
          { isConnected := true
            isSource := edge.sourceNodeTable.nodeTableName == node.name }) := by
  constructor
  · intro h
    rcases h with h | h
    · simp [Schema.nodeIsConnectedToEdge, h]
    · cases hn : Schema.getNodeFromName s nodeName <;>
        simp [Schema.nodeIsConnectedToEdge, hn, h]
  · intro node edge hn he
    simp [Schema.nodeIsConnectedToEdge, hn, he]

/-- Witness for C9: in the Person→WORKS_AT→Company schema fixture,
`Person` resolves as the source of `WORKS_AT`. -/
theorem nodeIsConnectedToEdge_spec_witness :
    Schema.nodeIsConnectedToEdge worksAtSchema "Person" "WORKS_AT" =
      { isConnected := true, isSource := true } := by
  have h := (nodeIsConnectedToEdge_spec worksAtSchema "Person" "WORKS_AT").2
    { name := "Person", labelNames := ["Person"] }
    { name := "WORKS_AT"
      labelNames := ["WORKS_AT"]
      sourceNodeTable := { nodeTableName := "Person" }
      destinationNodeTable := { nodeTableName := "Company" } }
    (by decide) (by decide)
  simpa using h

/-- Counterexample for C8: constructing a `GraphObject` without
`labels` throws a `TypeError` — the constructor does not return an
instance marked not instantiated (as also asserted by the repository's
own unit test). -/
theorem graphObject_missing_labels_throws_cex :
    GraphObject.construct none = .error "TypeError: labels must be an Array" := rfl

/-- C8 (amended): `labels` must be a non-empty sequence or
`GraphObject` construction fails; absent labels (not an Array) fail by
a thrown `TypeError` rather than an instance marked not instantiated,
while an empty labels sequence fails by marking the instance not
instantiated; a non-empty labels sequence instantiates the object
carrying its labels. -/
theorem graphObject_construct_spec (labels : Option (List String)) :
    (labels = none →
      GraphObject.construct labels = .error "TypeError: labels must be an Array")
    ∧ (labels = some [] →
      GraphObject.construct labels = .ok { labels := [], instantiated := false })
    ∧ (∀ ls, labels = some ls → ls ≠ [] →
      GraphObject.construct labels = .ok { labels := ls, instantiated := true }) := by
  refine ⟨?_, ?_, ?_⟩
  · intro h; subst h; rfl
  · intro h; subst h; rfl
  · intro ls h hne
    subst h
    simp [GraphObject.construct, List.isEmpty_iff, hne]

/-- Witness for C8 (amended): absent labels throw (the unit test's
assertion), empty labels yield a flagged instance, and the unit test's
two-label construction instantiates. -/
theorem graphObject_construct_spec_witness :
    (GraphObject.construct none = .error "TypeError: labels must be an Array")
    ∧ (GraphObject.construct (some []) =
        .ok { labels := [], instantiated := false })
    ∧ (GraphObject.construct (some ["foo", "bar"]) =
        .ok { labels := ["foo", "bar"], instantiated := true }) :=
  ⟨(graphObject_construct_spec none).1 rfl,
   (graphObject_construct_spec (some [])).2.1 rfl,
   (graphObject_construct_spec (some ["foo", "bar"])).2.2 ["foo", "bar"] rfl
     (by decide)⟩

/-- Counterexample for C1: when the requested view mode equals the
current one, `setViewMode` is a no-op, so a previously focused object is
still focused afterwards — the "always yields null regardless of prior
state" reading is false. -/
theorem setViewMode_same_mode_keeps_focus_cex :
    (GraphStore.setViewMode focusedStore ViewMode.DEFAULT).1.config.focusedGraphObject
      = some personNode ∧ some personNode ≠ (none : Option GraphObj) := by
  constructor
  · rfl
  · decide

/-- C1 (amended): when the requested view mode differs from the current
one, `setViewMode` clears focus and selection first (each notifying its
listeners while the view mode is still the old one), then switches the
mode, then notifies the view-mode listeners — so reading
`focusedGraphObject`/`selectedGraphObject` immediately afterwards yields
null; when the requested mode equals the current one the call is a
no-op that keeps the prior focus/selection and notifies nobody. -/
theorem setViewMode_spec (s : GraphStoreState) (vm : ViewMode) :
    (vm ≠ s.config.viewMode →
      GraphStore.setViewMode s vm =
        ({ s with config :=
             { s.config with
                 focusedGraphObject := none
                 selectedGraphObject := none
                 viewMode := vm } },
         [.focusObject none { s.config with focusedGraphObject := none },
          .selectObject none
            { s.config with focusedGraphObject := none, selectedGraphObject := none },
          .viewModeChange vm
            { s.config with
                focusedGraphObject := none
                selectedGraphObject := none
                viewMode := vm }]))
    ∧ (vm = s.config.viewMode → GraphStore.setViewMode s vm = (s, [])) := by
  constructor
  · intro h
    simp [GraphStore.setViewMode, GraphStore.setFocusedObject,
      GraphStore.setSelectedObject, h]
  · intro h
    simp [GraphStore.setViewMode, h]

/-- Witness for C1 (amended): switching the focused store from the live
view to the schema view clears focus and selection and emits the three
notifications in order. -/
theorem setViewMode_spec_witness :
    GraphStore.setViewMode focusedStore ViewMode.SCHEMA =
      ({ focusedStore with config :=
           { focusedStore.config with
               focusedGraphObject := none
               selectedGraphObject := none
               viewMode := ViewMode.SCHEMA } },
       [.focusObject none { focusedStore.config with focusedGraphObject := none },
        .selectObject none
          { focusedStore.config with
              focusedGraphObject := none, selectedGraphObject := none },
        .viewModeChange ViewMode.SCHEMA
          { focusedStore.config with
              focusedGraphObject := none
              selectedGraphObject := none
              viewMode := ViewMode.SCHEMA }]) :=
  (setViewMode_spec focusedStore ViewMode.SCHEMA).1 (by decide)

/-- C4: the 4-way priority of `getEdgeDesign` — a selected edge gets
the selected style; with a selection present, an edge touching the
selected object gets the focused style and any other edge the default
style; with no selection, the focused edge or an edge touching the
focused object gets the focused style; everything else gets the default
style.  Selection takes precedence over focus throughout. -/
theorem edgeIsConnectedToNode_none (e : Option GraphObj) :
    GraphStore.edgeIsConnectedToNode e none = false := by
  cases e <;> rfl

theorem getEdgeDesign_priority (s : GraphStoreState) (edge : GraphObj) :
    (∀ sel, s.config.selectedGraphObject = some sel →
        (jsEq edge sel = true → GraphStore.getEdgeDesign s edge = .selected)
      ∧ (jsEq edge sel = false →
          GraphStore.edgeIsConnectedToNode (some edge) (some sel) = true →
          GraphStore.getEdgeDesign s edge = .focused)
      ∧ (jsEq edge sel = false →
          GraphStore.edgeIsConnectedToNode (some edge) (some sel) = false →
          GraphStore.getEdgeDesign s edge = .defaultStyle))
    ∧ (s.config.selectedGraphObject = none →
        (∀ f, s.config.focusedGraphObject = some f →
            (jsEq edge f = true ∨
             GraphStore.edgeIsConnectedToNode (some edge) (some f) = true) →
            GraphStore.getEdgeDesign s edge = .focused)
      ∧ (∀ f, s.config.focusedGraphObject = some f →
            jsEq edge f = false →
            GraphStore.edgeIsConnectedToNode (some edge) (some f) = false →
            GraphStore.getEdgeDesign s edge = .defaultStyle)
      ∧ (s.config.focusedGraphObject = none →
            GraphStore.getEdgeDesign s edge = .defaultStyle)) := by
  constructor
  · intro sel hsel
    refine ⟨?_, ?_, ?_⟩
    · intro hje
      simp [GraphStore.getEdgeDesign, hsel, hje]
    · intro hje htouch
      simp [GraphStore.getEdgeDesign, hsel, hje, htouch]
    · intro hje htouch
      simp [GraphStore.getEdgeDesign, hsel, hje, htouch]
  · intro hsel
    refine ⟨?_, ?_, ?_⟩
    · intro f hf hor
      rcases hor with hje | htouch
      · simp [GraphStore.getEdgeDesign, hsel, hf, hje]
      · by_cases hje : jsEq edge f
        · simp [GraphStore.getEdgeDesign, hsel, hf, hje]
        · simp [GraphStore.getEdgeDesign, hsel, hf, hje, htouch,
            edgeIsConnectedToNode_none]
    · intro f hf hje htouch
      simp [GraphStore.getEdgeDesign, hsel, hf, hje, htouch,
        edgeIsConnectedToNode_none]
    · intro hf
      simp [GraphStore.getEdgeDesign, hsel, hf, edgeIsConnectedToNode_none]

/-- Witness for C4: with `personNode` selected, the edge touching it is
focused, a stray edge is default; with only a focus present, the
focused edge itself is focused. -/
theorem getEdgeDesign_priority_witness :
    GraphStore.getEdgeDesign selectedStore worksAtEdge = .focused
    ∧ GraphStore.getEdgeDesign selectedStore strayEdge = .defaultStyle
    ∧ GraphStore.getEdgeDesign
        { baseStore with
            config := { baseConfig with focusedGraphObject := some worksAtEdge } }
        worksAtEdge = .focused := by
  refine ⟨?_, ?_, ?_⟩
  · exact ((getEdgeDesign_priority selectedStore worksAtEdge).1 personNode
      rfl).2.1 (by decide) (by decide)
  · exact ((getEdgeDesign_priority selectedStore strayEdge).1 personNode
      rfl).2.2 (by decide) (by decide)
  · exact (((getEdgeDesign_priority
      { baseStore with
          config := { baseConfig with focusedGraphObject := some worksAtEdge } }
      worksAtEdge).2 rfl).1 worksAtEdge rfl (Or.inl (by decide)))

theorem getColorForNodeByNeighborhood_state (s : GraphStoreState) (node : GraphObj) :
    (GraphStore.getColorForNodeByNeighborhood s node).2.1.config = s.config
    ∧ (GraphStore.getColorForNodeByNeighborhood s node).2.1.reservedColorsByLabel
        = s.reservedColorsByLabel
    ∧ ((GraphStore.getColorForNodeByNeighborhood s node).2.1.reservedColorsByNeighborhood
          = s.reservedColorsByNeighborhood
       ∨ (GraphStore.getColorForNodeByNeighborhood s node).2.1.reservedColorsByNeighborhood
          = s.reservedColorsByNeighborhood ++ [node.neighborhood]) := by
  unfold GraphStore.getColorForNodeByNeighborhood
  cases hfind : s.reservedColorsByNeighborhood.findIdx?
      (fun x => x = node.neighborhood) with
  | none =>
      by_cases hle :
          s.config.colorPalette.length ≤ s.reservedColorsByNeighborhood.length <;>
        simp [hfind, hle]
  | some i =>
      by_cases hle : s.config.colorPalette.length ≤ i <;> simp [hfind, hle]

/-- C5: `getColorForNode` dispatches on the configured color scheme.
Under `NEIGHBORHOOD` the palette slot is keyed by the node's
neighborhood id — a reserved id keeps its slot (first-seen-wins), a
fresh id gets the next slot, and a slot index past the palette falls
back to `colorPalette[0]` with a diagnostic.  Under `LABEL` the
precomputed `nodeColors` entry is returned, with the neutral gray
default when the label is absent.  Any other scheme value makes the
call throw, as does `addEventListener` for an unregistered event type. -/
theorem getColorForNode_dispatch (s : GraphStoreState) (node : GraphObj)
    (ls : EventListeners) (cb : Nat) :
    (s.config.colorScheme = .NEIGHBORHOOD →
      (∀ i, s.reservedColorsByNeighborhood.findIdx?
            (fun x => x = node.neighborhood) = some i →
          i < s.config.colorPalette.length →
          GraphStore.getColorForNode s node =
            .ok (s.config.colorPalette[i]?, s, []))
      ∧ (∀ i, s.reservedColorsByNeighborhood.findIdx?
            (fun x => x = node.neighborhood) = some i →
          s.config.colorPalette.length ≤ i →
          GraphStore.getColorForNode s node =
            .ok (s.config.colorPalette[0]?, s,
                 ["Ran out of colors for neighborhood"]))
      ∧ (s.reservedColorsByNeighborhood.findIdx?
            (fun x => x = node.neighborhood) = none →
          s.reservedColorsByNeighborhood.length < s.config.colorPalette.length →
          GraphStore.getColorForNode s node =
            .ok (s.config.colorPalette[s.reservedColorsByNeighborhood.length]?,
                 { s with reservedColorsByNeighborhood :=
                     s.reservedColorsByNeighborhood ++ [node.neighborhood] }, []))
      ∧ (s.reservedColorsByNeighborhood.findIdx?
            (fun x => x = node.neighborhood) = none →
          s.config.colorPalette.length ≤ s.reservedColorsByNeighborhood.length →
          GraphStore.getColorForNode s node =
            .ok (s.config.colorPalette[0]?,
                 { s with reservedColorsByNeighborhood :=
                     s.reservedColorsByNeighborhood ++ [node.neighborhood] },
                 ["Ran out of colors for neighborhood"])))
    ∧ (s.config.colorScheme = .LABEL →
      GraphStore.getColorForNode s node =
        .ok (some (GraphStore.getColorForNodeByLabel s (some node)), s, [])
      ∧ (∀ l c, node.kind = .gnode → node.labels.head? = some l →
          lookupKV s.config.nodeColors l = some c → c ≠ "" →
          GraphStore.getColorForNodeByLabel s (some node) = c)
      ∧ (∀ l, node.kind = .gnode → node.labels.head? = some l →
          lookupKV s.config.nodeColors l = none →
          GraphStore.getColorForNodeByLabel s (some node) = "rgb(100, 100, 100)"))
    ∧ (∀ v, s.config.colorScheme = .other v →
        GraphStore.getColorForNode s node = .error "Invalid color scheme")
    ∧ addEventListener ls none cb = .error "Invalid event type" := by
  refine ⟨?_, ?_, ?_, rfl⟩
  · intro hscheme
    refine ⟨?_, ?_, ?_, ?_⟩
    · intro i hfind hlt
      simp [GraphStore.getColorForNode, hscheme,
        GraphStore.getColorForNodeByNeighborhood, hfind, Nat.not_le.mpr hlt]
    · intro i hfind hle
      simp [GraphStore.getColorForNode, hscheme,
        GraphStore.getColorForNodeByNeighborhood, hfind, hle]
    · intro hfind hlt
      simp [GraphStore.getColorForNode, hscheme,
        GraphStore.getColorForNodeByNeighborhood, hfind, Nat.not_le.mpr hlt]
    · intro hfind hle
      simp [GraphStore.getColorForNode, hscheme,
        GraphStore.getColorForNodeByNeighborhood, hfind, hle]
  · intro hscheme
    refine ⟨?_, ?_, ?_⟩
    · simp [GraphStore.getColorForNode, hscheme]
    · intro l c hkind hhead hlook hne
      simp [GraphStore.getColorForNodeByLabel, hkind, hhead, hlook, hne]
    · intro l hkind hhead hlook
      simp [GraphStore.getColorForNodeByLabel, hkind, hhead, hlook]
  · intro v hscheme
    simp [GraphStore.getColorForNode, hscheme]

/-- Witness for C5: in the neighborhood store the fresh neighborhood 7
reserves slot 0 ("red"); a non-enum scheme value throws; an
unregistered event type throws. -/
theorem getColorForNode_dispatch_witness :
    GraphStore.getColorForNode nbhStore personNode =
      .ok (some "red",
           { nbhStore with reservedColorsByNeighborhood := [7] }, [])
    ∧ GraphStore.getColorForNode
        { baseStore with
            config := { baseConfig with colorScheme := .other "BOGUS" } }
        personNode = .error "Invalid color scheme"
    ∧ addEventListener ⟨fun _ => []⟩ none 0 = .error "Invalid event type" := by
  refine ⟨?_, ?_, ?_⟩
  · have h := ((getColorForNode_dispatch nbhStore personNode ⟨fun _ => []⟩ 0).1
      rfl).2.2.1 (by decide) (by decide)
    exact h.trans (by rfl)
  · exact (getColorForNode_dispatch
      { baseStore with
          config := { baseConfig with colorScheme := .other "BOGUS" } }
      personNode ⟨fun _ => []⟩ 0).2.2.1 "BOGUS" rfl
  · exact (getColorForNode_dispatch nbhStore personNode ⟨fun _ => []⟩ 0).2.2.2

/-- Counterexample for C6: under the neighborhood scheme a call to
`getColorForNode` on a first-seen neighborhood id returns a store state
whose reserved-color bookkeeping differs from the input state — the
call is not mutation-free. -/
theorem getColorForNode_mutation_cex :
    GraphStore.getColorForNode nbhStore2 personNode =
      .ok (some "blue",
           { nbhStore2 with reservedColorsByNeighborhood := [7] }, [])
    ∧ ({ nbhStore2 with reservedColorsByNeighborhood := [7] } : GraphStoreState)
        ≠ nbhStore2 := by
  constructor
  · rfl
  · decide

/-- C6 (amended): `getColorForNode` under `LABEL` leaves the entire
store state unchanged; under `NEIGHBORHOOD` it leaves the configuration
and the label bookkeeping unchanged, and the neighborhood bookkeeping
is either unchanged or extended by the node's neighborhood id (when
first seen). -/
theorem getColorForNode_frame (s : GraphStoreState) (node : GraphObj) :
    (s.config.colorScheme = .LABEL →
      GraphStore.getColorForNode s node =
        .ok (some (GraphStore.getColorForNodeByLabel s (some node)), s, []))
    ∧ (s.config.colorScheme = .NEIGHBORHOOD →
      ∀ c s1 d, GraphStore.getColorForNode s node = .ok (c, s1, d) →
        s1.config = s.config
        ∧ s1.reservedColorsByLabel = s.reservedColorsByLabel
        ∧ (s1.reservedColorsByNeighborhood = s.reservedColorsByNeighborhood
           ∨ s1.reservedColorsByNeighborhood =
               s.reservedColorsByNeighborhood ++ [node.neighborhood])) := by
  constructor
  · intro hscheme
    simp [GraphStore.getColorForNode, hscheme]
  · intro hscheme c s1 d h
    have h0 : GraphStore.getColorForNode s node =
        .ok (GraphStore.getColorForNodeByNeighborhood s node) := by
      simp [GraphStore.getColorForNode, hscheme]
    rw [h0] at h
    have h1 : GraphStore.getColorForNodeByNeighborhood s node = (c, s1, d) :=
      Except.ok.inj h
    have h2 : s1 = (GraphStore.getColorForNodeByNeighborhood s node).2.1 := by
      rw [h1]
    rw [h2]
    exact getColorForNodeByNeighborhood_state s node

/-- Witness for C6 (amended): under the label scheme the base store is
returned unchanged, and under the neighborhood scheme only the
neighborhood bookkeeping grows. -/
theorem getColorForNode_frame_witness :
    GraphStore.getColorForNode baseStore personNode =
      .ok (some (GraphStore.getColorForNodeByLabel baseStore (some personNode)),
           baseStore, [])
    ∧ (({ nbhStore with reservedColorsByNeighborhood := [7] } :
          GraphStoreState).config = nbhStore.config
       ∧ ({ nbhStore with reservedColorsByNeighborhood := [7] } :
          GraphStoreState).reservedColorsByLabel = nbhStore.reservedColorsByLabel
       ∧ (({ nbhStore with reservedColorsByNeighborhood := [7] } :
            GraphStoreState).reservedColorsByNeighborhood
              = nbhStore.reservedColorsByNeighborhood
          ∨ ({ nbhStore with reservedColorsByNeighborhood := [7] } :
            GraphStoreState).reservedColorsByNeighborhood
              = nbhStore.reservedColorsByNeighborhood ++ [personNode.neighborhood])) := by
  constructor
  · exact (getColorForNode_frame baseStore personNode).1 rfl
  · exact (getColorForNode_frame nbhStore personNode).2 rfl
      (some "red") { nbhStore with reservedColorsByNeighborhood := [7] } []
      (by rfl)

theorem appendGraphData_cases (s : GraphStoreState)
    (nodesData : Option (List NodeData)) (edgesData : Option (List EdgeData)) :
    (((nodesData.getD []).filter
          (fun nd => (lookupKV s.config.nodes nd.identifier).isNone) = []
      ∧ (edgesData.getD []).filter
          (fun ed => (lookupKV s.config.edges ed.identifier).isNone) = []) →
      GraphStore.appendGraphData s nodesData edgesData = (s, [], none))
    ∧ (¬((nodesData.getD []).filter
          (fun nd => (lookupKV s.config.nodes nd.identifier).isNone) = []
      ∧ (edgesData.getD []).filter
          (fun ed => (lookupKV s.config.edges ed.identifier).isNone) = []) →
      GraphStore.appendGraphData s nodesData edgesData =
        (let newNodes := (nodesData.getD []).filter
            (fun nd => (lookupKV s.config.nodes nd.identifier).isNone)
         let newEdges := (edgesData.getD []).filter
            (fun ed => (lookupKV s.config.edges ed.identifier).isNone)
         let cfg := s.config.appendGraphData newNodes newEdges
         let s1 : GraphStoreState := { s with config := cfg }
         (s1,
          [.graphDataUpdate (GraphStore.getNodes s1) (GraphStore.getEdges s1)
             newNodes newEdges cfg],
          some (newNodes, newEdges)))) := by
  constructor
  · rintro ⟨h1, h2⟩
    cases nodesData <;> cases edgesData <;>
      simp_all [GraphStore.appendGraphData, List.isEmpty_iff]
  · intro h
    cases nodesData <;> cases edgesData <;>
      simp_all [GraphStore.appendGraphData, List.isEmpty_iff]

/-- C2: `GraphStore.appendGraphData` drops every item whose identifier
already keys the corresponding live map (`newNodes`/`newEdges` are the
filtered batches) before delegating; when both filtered batches are
empty it returns with the store state unchanged and no notification;
otherwise it delegates the filtered batches to the Configuration and
then notifies the graph-data-update listeners with the current graph
and the filtered new items. -/
theorem appendGraphData_store_spec (s : GraphStoreState)
    (nodesData : Option (List NodeData)) (edgesData : Option (List EdgeData))
    (newNodes : List NodeData) (newEdges : List EdgeData)
    (hn : newNodes = (nodesData.getD []).filter
        (fun nd => (lookupKV s.config.nodes nd.identifier).isNone))
    (he : newEdges = (edgesData.getD []).filter
        (fun ed => (lookupKV s.config.edges ed.identifier).isNone)) :
    ((newNodes = [] ∧ newEdges = []) →
      GraphStore.appendGraphData s nodesData edgesData = (s, [], none))
    ∧ (¬(newNodes = [] ∧ newEdges = []) →
      GraphStore.appendGraphData s nodesData edgesData =
        ({ s with config := s.config.appendGraphData newNodes newEdges },
         [.graphDataUpdate
            (GraphStore.getNodes
              { s with config := s.config.appendGraphData newNodes newEdges })
            (GraphStore.getEdges
              { s with config := s.config.appendGraphData newNodes newEdges })
            newNodes newEdges
            (s.config.appendGraphData newNodes newEdges)],
         some (newNodes, newEdges))) := by
  subst hn he
  have hc := appendGraphData_cases s nodesData edgesData
  exact ⟨fun h => hc.1 h, fun h => hc.2 h⟩

/-- Witness for C2: re-submitting the already-present `janeData` to
`dupStore` is a silent no-op, while submitting it to the empty
`baseStore` ingests it and notifies with the filtered batch. -/
theorem appendGraphData_store_spec_witness :
    (GraphStore.appendGraphData dupStore (some [janeData]) (some []) =
      (dupStore, [], none))
    ∧ (GraphStore.appendGraphData baseStore (some [janeData]) (some []) =
      ({ baseStore with config := baseStore.config.appendGraphData [janeData] [] },
       [.graphDataUpdate
          (GraphStore.getNodes
            { baseStore with
                config := baseStore.config.appendGraphData [janeData] [] })
          (GraphStore.getEdges
            { baseStore with
                config := baseStore.config.appendGraphData [janeData] [] })
          [janeData] []
          (baseStore.config.appendGraphData [janeData] [])],
       some ([janeData], []))) := by
  constructor
  · exact (appendGraphData_store_spec dupStore (some [janeData]) (some [])
      [] [] (by decide) (by decide)).1 ⟨rfl, rfl⟩
  · exact (appendGraphData_store_spec baseStore (some [janeData]) (some [])
      [janeData] [] (by decide) (by decide)).2 (by simp)

theorem append_second_call_counts (t : GraphStoreState)
    (nodesData : Option (List NodeData)) (edgesData : Option (List EdgeData))
    (hvn : ∀ x ∈ nodesData.getD [], x.labels.isEmpty = false →
        (lookupKV t.config.nodes x.identifier).isSome)
    (hve : ∀ x ∈ edgesData.getD [], x.labels.isEmpty = false →
        (lookupKV t.config.edges x.identifier).isSome)
    (hcn : t.config.nodeCount = t.config.nodes.length)
    (hce : t.config.edgeCount = t.config.edges.length) :
    (GraphStore.appendGraphData t nodesData edgesData).1.config.nodeCount
      = t.config.nodeCount
    ∧ (GraphStore.appendGraphData t nodesData edgesData).1.config.edgeCount
      = t.config.edgeCount := by
  have hc := appendGraphData_cases t nodesData edgesData
  by_cases hempty :
      ((nodesData.getD []).filter
          (fun nd => (lookupKV t.config.nodes nd.identifier).isNone) = []
      ∧ (edgesData.getD []).filter
          (fun ed => (lookupKV t.config.edges ed.identifier).isNone) = [])
  · rw [hc.1 hempty]
    exact ⟨rfl, rfl⟩
  · have h1 := hc.2 hempty
    have hs1 : (GraphStore.appendGraphData t nodesData edgesData).1
        = { t with config := (t.config.appendGraphData
              ((nodesData.getD []).filter
                (fun nd => (lookupKV t.config.nodes nd.identifier).isNone))
              ((edgesData.getD []).filter
                (fun ed => (lookupKV t.config.edges ed.identifier).isNone))) } := by
      rw [h1]
    rw [hs1]
    have hinvN : ∀ x ∈ (nodesData.getD []).filter
        (fun nd => (lookupKV t.config.nodes nd.identifier).isNone),
        x.labels.isEmpty = true := by
      intro x hx
      rcases List.mem_filter.mp hx with ⟨hm, hp⟩
      cases hval : x.labels.isEmpty with
      | true => rfl
      | false =>
          have hsome := hvn x hm hval
          rw [Option.isNone_iff_eq_none] at hp
          rw [hp] at hsome
          cases hsome
    have hinvE : ∀ x ∈ (edgesData.getD []).filter
        (fun ed => (lookupKV t.config.edges ed.identifier).isNone),
        x.labels.isEmpty = true := by
      intro x hx
      rcases List.mem_filter.mp hx with ⟨hm, hp⟩
      cases hval : x.labels.isEmpty with
      | true => rfl
      | false =>
          have hsome := hve x hm hval
          rw [Option.isNone_iff_eq_none] at hp
          rw [hp] at hsome
          cases hsome
    constructor
    · show (mergeParsedNodes t.config.nodes
        ((nodesData.getD []).filter
          (fun nd => (lookupKV t.config.nodes nd.identifier).isNone))).length
          = t.config.nodeCount
      rw [mergeParsedNodes_all_invalid _ _ hinvN, hcn]
    · show (mergeParsedEdges t.config.edges
        ((edgesData.getD []).filter
          (fun ed => (lookupKV t.config.edges ed.identifier).isNone))).length
          = t.config.edgeCount
      rw [mergeParsedEdges_all_invalid _ _ hinvE, hce]

/-- C3: `appendGraphData` is idempotent with respect to re-submission:
after one call, calling it again with exactly the same batches leaves
`nodeCount` and `edgeCount` at their values after the first call (for
any input batches, well-formed or not). -/
theorem appendGraphData_idempotent_counts (s : GraphStoreState)
    (nodesData : Option (List NodeData)) (edgesData : Option (List EdgeData)) :
    (GraphStore.appendGraphData
        (GraphStore.appendGraphData s nodesData edgesData).1
        nodesData edgesData).1.config.nodeCount
      = (GraphStore.appendGraphData s nodesData edgesData).1.config.nodeCount
    ∧ (GraphStore.appendGraphData
        (GraphStore.appendGraphData s nodesData edgesData).1
        nodesData edgesData).1.config.edgeCount
      = (GraphStore.appendGraphData s nodesData edgesData).1.config.edgeCount := by
  have hc := appendGraphData_cases s nodesData edgesData
  by_cases hempty :
      ((nodesData.getD []).filter
          (fun nd => (lookupKV s.config.nodes nd.identifier).isNone) = []
      ∧ (edgesData.getD []).filter
          (fun ed => (lookupKV s.config.edges ed.identifier).isNone) = [])
  · rw [hc.1 hempty]
    show (GraphStore.appendGraphData s nodesData edgesData).1.config.nodeCount
        = s.config.nodeCount
      ∧ (GraphStore.appendGraphData s nodesData edgesData).1.config.edgeCount
        = s.config.edgeCount
    rw [hc.1 hempty]
    exact ⟨rfl, rfl⟩
  · have h1 := hc.2 hempty
    have hs1 : (GraphStore.appendGraphData s nodesData edgesData).1
        = { s with config := (s.config.appendGraphData
              ((nodesData.getD []).filter
                (fun nd => (lookupKV s.config.nodes nd.identifier).isNone))
              ((edgesData.getD []).filter
                (fun ed => (lookupKV s.config.edges ed.identifier).isNone))) } := by
      rw [h1]
    rw [hs1]
    apply append_second_call_counts
    · intro x hm hval
      show (lookupKV (mergeParsedNodes s.config.nodes
        ((nodesData.getD []).filter
          (fun nd => (lookupKV s.config.nodes nd.identifier).isNone)))
        x.identifier).isSome
      cases hlook : lookupKV s.config.nodes x.identifier with
      | some v =>
          exact lookupKV_mergeParsedNodes_isSome _ _ _ (by simp [hlook])
      | none =>
          exact lookupKV_mergeParsedNodes_mem _ _ x
            (List.mem_filter.mpr ⟨hm, by simp [hlook]⟩) hval
    · intro x hm hval
      show (lookupKV (mergeParsedEdges s.config.edges
        ((edgesData.getD []).filter
          (fun ed => (lookupKV s.config.edges ed.identifier).isNone)))
        x.identifier).isSome
      cases hlook : lookupKV s.config.edges x.identifier with
      | some v =>
          exact lookupKV_mergeParsedEdges_isSome _ _ _ (by simp [hlook])
      | none =>
          exact lookupKV_mergeParsedEdges_mem _ _ x
            (List.mem_filter.mpr ⟨hm, by simp [hlook]⟩) hval
    · rfl
    · rfl

end SpannerGraph
